import Mathlib

/-!
Shallow embedding of the ERC-8004-style trust-protocol registries
(IdentityRegistry.sol, ReputationRegistry.sol, ValidationRegistry.sol).
Each mutating contract function is modelled as a pure function from an
explicit state to a pair of an `Except`-typed outcome and the state that
results: state writes are applied in source order, and every revert site
returns the state accumulated so far, so that the check-before-mutate
discipline of the contracts is a provable property rather than an
assumption.  Addresses, nonces, hashes and ids are `Nat` (the null
address / zero hash is `0`); Solidity mappings are total functions with
the zero value as default, exactly as in the EVM.
-/

/-- Pointwise update of a one-key mapping (Solidity `m[x] = v`). -/
def upd {α β : Type} [DecidableEq α] (f : α → β) (x : α) (v : β) : α → β :=
  fun y => if y = x then v else f y

/-- Pointwise update of a two-key mapping (Solidity `m[x][y] = v`). -/
def upd2 {α β γ : Type} [DecidableEq α] [DecidableEq β]
    (f : α → β → γ) (x : α) (y : β) (v : γ) : α → β → γ :=
  fun a b => if a = x ∧ b = y then v else f a b

/-- Lowercase hex digit for a value below 16 (OpenZeppelin HEX_DIGITS table). -/
def hexChar (n : Nat) : Char :=
  if n < 10 then Char.ofNat (48 + n) else Char.ofNat (87 + n)

/-- Fills hex digits from the least significant nibble, most significant first. -/
def hexDigitsAux : Nat → Nat → List Char → List Char
  | _, 0, acc => acc
  | v, Nat.succ k, acc => hexDigitsAux (v / 16) k (hexChar (v % 16) :: acc)

/-- Model of OpenZeppelin Strings.toHexString(value, length): a 0x-prefixed,
fixed-width, lowercase hexadecimal rendering over 2*length digits. -/
def toHexString (value : Nat) (byteLen : Nat) : String :=
  "0x" ++ String.mk (hexDigitsAux value (2 * byteLen) [])

/-- Model of an ECDSA signature: in the symbolic model a signature is the
data it attests to (protocol id, function name, message) together with the
key that produced it, which is what ecrecover extracts. -/
structure Sig where
  protocolId : String
  functionName : String
  message : String
  signer : Nat
deriving DecidableEq

/-- Model of SignatureRecover.signatureVerification: the recovered signer of
the hash of (protocolId, functionName, message) must equal the claimed
signer; any mismatch (including a malformed signature) yields false. -/
def signatureVerification (protocolId functionName message : String)
    (signature : Sig) (claimedSigner : Nat) : Bool :=
  (signature.protocolId == protocolId) &&
  (signature.functionName == functionName) &&
  (signature.message == message) &&
  (signature.signer == claimedSigner)

/-- Union of the typed errors of the three registry contracts. -/
inductive Err where
  | InsufficientFee
  | InvalidDomain
  | InvalidAddress
  | DomainAlreadyRegistered
  | AddressAlreadyRegistered
  | InvalidSignature
  | NonceAlreadyUsed
  | AgentNotFound
  | UnauthorizedUpdate
  | UnauthorizedFeedback
  | FeedbackAlreadyAuthorized
  | InvalidDataHash
  | InvalidResponse
  | ValidationRequestNotFound
  | RequestExpired
  | ValidationAlreadyResponded
  | UnauthorizedValidator
deriving DecidableEq

/-- AgentInfo struct of IIdentityRegistry. -/
structure AgentInfo where
  agentId : Nat
  agentDomain : String
  agentAddress : Nat
deriving DecidableEq

/-- The all-zero AgentInfo, the default value of the `_agents` mapping. -/
def AgentInfo.zero : AgentInfo := ⟨0, "", 0⟩

/-- Storage of IdentityRegistry.sol. -/
structure IdState where
  agentIdCounter : Nat
  checkAsyncNonce : Nat → Nat → Bool
  agents : Nat → AgentInfo
  domainToAgentId : String → Nat
  addressToAgentId : Nat → Nat

/-- State established by the IdentityRegistry constructor. -/
def initialIdState : IdState :=
  { agentIdCounter := 1
    checkAsyncNonce := fun _ _ => false
    agents := fun _ => AgentInfo.zero
    domainToAgentId := fun _ => 0
    addressToAgentId := fun _ => 0 }

/-- REGISTRATION_FEE = 0.005 ether, in wei. -/
def REGISTRATION_FEE : Nat := 5000000000000000

/-- Canonical message signed for newAgent: domain, hex address, decimal nonce. -/
def newAgentMessage (agentDomain : String) (agentAddress nonce : Nat) : String :=
  agentDomain ++ "," ++ toHexString agentAddress 20 ++ "," ++ toString nonce

/-- Canonical message signed for updateAgent. -/
def updateAgentMessage (agentId : Nat) (newAgentDomain : String)
    (newAgentAddress nonce : Nat) : String :=
  toString agentId ++ "," ++ newAgentDomain ++ "," ++
    toHexString newAgentAddress 20 ++ "," ++ toString nonce

/-- IdentityRegistry.newAgent.  `evvmId` is the injected EVVM chain id,
`msgValue` the attached payment, `client` the signing principal. -/
def newAgent (evvmId msgValue : Nat) (s : IdState) (client : Nat)
    (agentDomain : String) (agentAddress nonce : Nat) (signature : Sig) :
    Except Err Nat × IdState :=
  if msgValue ≠ REGISTRATION_FEE then (.error .InsufficientFee, s)
  else if agentDomain.length = 0 then (.error .InvalidDomain, s)
  else if agentAddress = 0 then (.error .InvalidAddress, s)
  else if s.domainToAgentId agentDomain ≠ 0 then (.error .DomainAlreadyRegistered, s)
  else if s.addressToAgentId agentAddress ≠ 0 then (.error .AddressAlreadyRegistered, s)
  else if signatureVerification (toString evvmId) "newAgent"
      (newAgentMessage agentDomain agentAddress nonce) signature client = false then
    (.error .InvalidSignature, s)
  else if s.checkAsyncNonce client nonce = true then (.error .NonceAlreadyUsed, s)
  else
    let agentId := s.agentIdCounter
    (.ok agentId,
      { s with
        agentIdCounter := s.agentIdCounter + 1
        agents := upd s.agents agentId ⟨agentId, agentDomain, agentAddress⟩
        domainToAgentId := upd s.domainToAgentId agentDomain agentId
        addressToAgentId := upd s.addressToAgentId agentAddress agentId
        checkAsyncNonce := upd2 s.checkAsyncNonce client nonce true })

/-- IdentityRegistry.updateAgent.  `sender` is msg.sender (the invoking
caller), `client` the signing principal being authenticated. -/
def updateAgent (evvmId sender : Nat) (s : IdState) (client agentId : Nat)
    (newAgentDomain : String) (newAgentAddress nonce : Nat) (signature : Sig) :
    Except Err Bool × IdState :=
  let agent := s.agents agentId
  if agent.agentId = 0 then (.error .AgentNotFound, s)
  else if sender ≠ agent.agentAddress then (.error .UnauthorizedUpdate, s)
  else if signatureVerification (toString evvmId) "updateAgent"
      (updateAgentMessage agentId newAgentDomain newAgentAddress nonce) signature client = false then
    (.error .InvalidSignature, s)
  else if s.checkAsyncNonce client nonce = true then (.error .NonceAlreadyUsed, s)
  else if newAgentDomain.length > 0 ∧ s.domainToAgentId newAgentDomain ≠ 0 then
    (.error .DomainAlreadyRegistered, s)
  else if newAgentAddress ≠ 0 ∧ s.addressToAgentId newAgentAddress ≠ 0 then
    (.error .AddressAlreadyRegistered, s)
  else
    let s1 :=
      if newAgentDomain.length > 0 then
        { s with
          domainToAgentId :=
            upd (upd s.domainToAgentId agent.agentDomain 0) newAgentDomain agentId
          agents := upd s.agents agentId { agent with agentDomain := newAgentDomain } }
      else s
    let agent1 := s1.agents agentId
    let s2 :=
      if newAgentAddress ≠ 0 then
        { s1 with
          addressToAgentId :=
            upd (upd s1.addressToAgentId agent1.agentAddress 0) newAgentAddress agentId
          agents := upd s1.agents agentId { agent1 with agentAddress := newAgentAddress } }
      else s1
    (.ok true, { s2 with checkAsyncNonce := upd2 s2.checkAsyncNonce client nonce true })

/-- IdentityRegistry.agentExists. -/
def agentExists (s : IdState) (agentId : Nat) : Bool :=
  (s.agents agentId).agentId != 0

/-- IdentityRegistry.getAgent (view; reverts AgentNotFound on an empty slot). -/
def getAgent (s : IdState) (agentId : Nat) : Except Err AgentInfo :=
  let a := s.agents agentId
  if a.agentId = 0 then .error .AgentNotFound else .ok a

/-- IdentityRegistry.getAgentCount. -/
def getAgentCount (s : IdState) : Nat := s.agentIdCounter - 1

/-- Storage of ReputationRegistry.sol. -/
structure RepState where
  checkAsyncNonce : Nat → Nat → Bool
  feedbackAuthorizations : Nat → Bool
  clientServerToAuthId : Nat → Nat → Nat

/-- State established by the ReputationRegistry constructor. -/
def initialRepState : RepState :=
  { checkAsyncNonce := fun _ _ => false
    feedbackAuthorizations := fun _ => false
    clientServerToAuthId := fun _ _ => 0 }

/-- Canonical message signed for acceptFeedback. -/
def acceptFeedbackMessage (agentClientId agentServerId nonce : Nat) : String :=
  toString agentClientId ++ "," ++ toString agentServerId ++ "," ++ toString nonce

/-- ReputationRegistry.acceptFeedback.  `sender` is msg.sender;
`authIdEntropy` models the keccak-derived output of _generateFeedbackAuthId,
which mixes the two ids with block timestamp, difficulty and tx.origin and
is therefore an injected environment value here. -/
def acceptFeedback (evvmId sender authIdEntropy : Nat) (idS : IdState)
    (s : RepState) (client agentClientId agentServerId nonce : Nat)
    (signature : Sig) : Except Err Unit × RepState :=
  if agentExists idS agentClientId = false then (.error .AgentNotFound, s)
  else if agentExists idS agentServerId = false then (.error .AgentNotFound, s)
  else if signatureVerification (toString evvmId) "updateAgent"
      (acceptFeedbackMessage agentClientId agentServerId nonce) signature client = false then
    (.error .InvalidSignature, s)
  else if s.checkAsyncNonce client nonce = true then (.error .NonceAlreadyUsed, s)
  else
    match getAgent idS agentServerId with
    | .error e => (.error e, s)
    | .ok serverAgent =>
      if sender ≠ serverAgent.agentAddress then (.error .UnauthorizedFeedback, s)
      else if s.clientServerToAuthId agentClientId agentServerId ≠ 0 then
        (.error .FeedbackAlreadyAuthorized, s)
      else
        (.ok (),
          { s with
            feedbackAuthorizations := upd s.feedbackAuthorizations authIdEntropy true
            clientServerToAuthId :=
              upd2 s.clientServerToAuthId agentClientId agentServerId authIdEntropy
            checkAsyncNonce := upd2 s.checkAsyncNonce client nonce true })

/-- Request struct of IValidationRegistry. -/
structure Request where
  agentValidatorId : Nat
  agentServerId : Nat
  dataHash : Nat
  timestamp : Nat
  responded : Bool
deriving DecidableEq

/-- The all-zero Request, the default value of the `_validationRequests` mapping. -/
def Request.zero : Request := ⟨0, 0, 0, 0, false⟩

/-- Storage of ValidationRegistry.sol. -/
structure ValState where
  checkAsyncNonce : Nat → Nat → Bool
  validationRequests : Nat → Request
  validationResponses : Nat → Nat
  hasResponse : Nat → Bool

/-- State established by the ValidationRegistry constructor. -/
def initialValState : ValState :=
  { checkAsyncNonce := fun _ _ => false
    validationRequests := fun _ => Request.zero
    validationResponses := fun _ => 0
    hasResponse := fun _ => false }

/-- EXPIRATION_SLOTS of ValidationRegistry.sol. -/
def EXPIRATION_SLOTS : Nat := 1000

/-- Canonical message signed for validationRequest. -/
def validationRequestMessage (agentValidatorId agentServerId dataHash nonce : Nat) : String :=
  toString agentValidatorId ++ "," ++ toString agentServerId ++ "," ++
    toHexString dataHash 32 ++ "," ++ toString nonce

/-- ValidationRegistry.validationRequest.  `blockNumber` is the injected
monotonic height counter (block.number). -/
def validationRequest (evvmId blockNumber : Nat) (idS : IdState) (s : ValState)
    (client agentValidatorId agentServerId dataHash nonce : Nat)
    (signature : Sig) : Except Err Unit × ValState :=
  if dataHash = 0 then (.error .InvalidDataHash, s)
  else if agentExists idS agentValidatorId = false then (.error .AgentNotFound, s)
  else if agentExists idS agentServerId = false then (.error .AgentNotFound, s)
  else if signatureVerification (toString evvmId) "updateAgent"
      (validationRequestMessage agentValidatorId agentServerId dataHash nonce) signature client = false then
    (.error .InvalidSignature, s)
  else if s.checkAsyncNonce client nonce = true then (.error .NonceAlreadyUsed, s)
  else if (s.validationRequests dataHash).dataHash ≠ 0 ∧
      blockNumber ≤ (s.validationRequests dataHash).timestamp + EXPIRATION_SLOTS then
    (.ok (), s)
  else
    (.ok (),
      { s with
        validationRequests := upd s.validationRequests dataHash
          ⟨agentValidatorId, agentServerId, dataHash, blockNumber, false⟩
        checkAsyncNonce := upd2 s.checkAsyncNonce client nonce true })

/-- Canonical message signed for validationResponse. -/
def validationResponseMessage (dataHash response nonce : Nat) : String :=
  toHexString dataHash 32 ++ "," ++ toString response ++ "," ++ toString nonce

/-- ValidationRegistry.validationResponse.  `sender` is msg.sender; the
recorded validator's address is re-resolved through the IdentityRegistry. -/
def validationResponse (evvmId blockNumber sender : Nat) (idS : IdState)
    (s : ValState) (client dataHash response nonce : Nat) (signature : Sig) :
    Except Err Unit × ValState :=
  if response > 100 then (.error .InvalidResponse, s)
  else
    let request := s.validationRequests dataHash
    if request.dataHash = 0 then (.error .ValidationRequestNotFound, s)
    else if blockNumber > request.timestamp + EXPIRATION_SLOTS then (.error .RequestExpired, s)
    else if request.responded = true then (.error .ValidationAlreadyResponded, s)
    else if signatureVerification (toString evvmId) "updateAgent"
        (validationResponseMessage dataHash response nonce) signature client = false then
      (.error .InvalidSignature, s)
    else if s.checkAsyncNonce client nonce = true then (.error .NonceAlreadyUsed, s)
    else
      match getAgent idS request.agentValidatorId with
      | .error e => (.error e, s)
      | .ok validatorAgent =>
        if sender ≠ validatorAgent.agentAddress then (.error .UnauthorizedValidator, s)
        else
          (.ok (),
            { s with
              validationRequests :=
                upd s.validationRequests dataHash { request with responded := true }
              validationResponses := upd s.validationResponses dataHash response
              hasResponse := upd s.hasResponse dataHash true
              checkAsyncNonce := upd2 s.checkAsyncNonce client nonce true })

/-- ValidationRegistry.getValidationResponse (view). -/
def getValidationResponse (s : ValState) (dataHash : Nat) : Bool × Nat :=
  if s.hasResponse dataHash = true then (true, s.validationResponses dataHash)
  else (false, 0)

/-- ValidationRegistry.isValidationPending (view). -/
def isValidationPending (blockNumber : Nat) (s : ValState) (dataHash : Nat) : Bool × Bool :=
  let request := s.validationRequests dataHash
  if request.dataHash ≠ 0 then
    (true, decide (¬ blockNumber > request.timestamp + EXPIRATION_SLOTS) && !request.responded)
  else (false, false)

/-! Concrete scenario used by witnesses and counterexamples: EVVM id 1,
signing principal 100, agent 1 = ("a.example.com", address 7) acting as
validator, agent 2 = ("b.example.com", address 8) acting as server,
validation data hash 5. -/

/-- Signature of principal 100 registering agent 1. -/
def sigNewA : Sig := ⟨"1", "newAgent", newAgentMessage "a.example.com" 7 1, 100⟩

/-- Identity state after registering agent 1. -/
def idStateA : IdState :=
  (newAgent 1 REGISTRATION_FEE initialIdState 100 "a.example.com" 7 1 sigNewA).2

/-- Signature of principal 100 registering agent 2. -/
def sigNewB : Sig := ⟨"1", "newAgent", newAgentMessage "b.example.com" 8 2, 100⟩

/-- Identity state after registering agents 1 and 2. -/
def idStateAB : IdState :=
  (newAgent 1 REGISTRATION_FEE idStateA 100 "b.example.com" 8 2 sigNewB).2

/-- Signature for the first validation request on hash 5 (nonce 1). -/
def sigReq1 : Sig := ⟨"1", "updateAgent", validationRequestMessage 1 2 5 1, 100⟩

/-- Validation state holding a pending request for hash 5, created at height 10. -/
def valStateReq : ValState :=
  (validationRequest 1 10 idStateAB initialValState 100 1 2 5 1 sigReq1).2

/-- Signature for the first validation response (score 40, nonce 2). -/
def sigResp40 : Sig := ⟨"1", "updateAgent", validationResponseMessage 5 40 2, 100⟩

/-- Validation state after the validator responded with score 40 at height 20. -/
def valStateResp : ValState :=
  (validationResponse 1 20 7 idStateAB valStateReq 100 5 40 2 sigResp40).2

/-- Signature for the re-request of hash 5 after expiry (nonce 3). -/
def sigReq3 : Sig := ⟨"1", "updateAgent", validationRequestMessage 1 2 5 3, 100⟩

/-- Validation state after hash 5 was re-requested at height 1011, past the
expiration window of the (already responded) request created at height 10. -/
def valStateReq2 : ValState :=
  (validationRequest 1 1011 idStateAB valStateResp 100 1 2 5 3 sigReq3).2

/-- Signature for the second validation response (score 90, nonce 4). -/
def sigResp90 : Sig := ⟨"1", "updateAgent", validationResponseMessage 5 90 4, 100⟩

/-- Validation state after the second response, score 90, at height 1020. -/
def valStateResp2 : ValState :=
  (validationResponse 1 1020 7 idStateAB valStateReq2 100 5 90 4 sigResp90).2

/-- Signature for a validation request on hash 5 with nonce 77. -/
def sigReq77 : Sig := ⟨"1", "updateAgent", validationRequestMessage 1 2 5 77, 100⟩

/-- An IdentityRegistry mutating call with all of its arguments. -/
inductive IdOp where
  | doNew (msgValue client : Nat) (agentDomain : String)
      (agentAddress nonce : Nat) (signature : Sig)
  | doUpd (sender client agentId : Nat) (newAgentDomain : String)
      (newAgentAddress nonce : Nat) (signature : Sig)

/-- The signing principal of an IdentityRegistry call. -/
def IdOp.client : IdOp → Nat
  | .doNew _ c _ _ _ _ => c
  | .doUpd _ c _ _ _ _ _ => c

/-- The nonce of an IdentityRegistry call. -/
def IdOp.nonce : IdOp → Nat
  | .doNew _ _ _ _ n _ => n
  | .doUpd _ _ _ _ _ n _ => n

/-- Outcome and post-state of an IdentityRegistry call (return value erased). -/
def idOpOutcome (evvmId : Nat) (s : IdState) : IdOp → Except Err Unit × IdState
  | .doNew mv c d a n g =>
      let r := newAgent evvmId mv s c d a n g
      (r.1.map (fun _ => ()), r.2)
  | .doUpd snd c i d a n g =>
      let r := updateAgent evvmId snd s c i d a n g
      (r.1.map (fun _ => ()), r.2)

/-- Post-state of an IdentityRegistry call. -/
def applyIdOp (evvmId : Nat) (s : IdState) (op : IdOp) : IdState :=
  (idOpOutcome evvmId s op).2

/-- Post-state of a sequence of IdentityRegistry calls. -/
def runIdOps (evvmId : Nat) (s : IdState) (ops : List IdOp) : IdState :=
  ops.foldl (applyIdOp evvmId) s

/-- The checks an IdentityRegistry call evaluates before its nonce check, in
source order: for newAgent the fee, input, uniqueness and signature checks;
for updateAgent the existence, caller-authorization and signature checks. -/
def prenonceChecksPass (evvmId : Nat) (s : IdState) : IdOp → Prop
  | .doNew mv c d a n g =>
      mv = REGISTRATION_FEE ∧ d.length ≠ 0 ∧ a ≠ 0 ∧
      s.domainToAgentId d = 0 ∧ s.addressToAgentId a = 0 ∧
      signatureVerification (toString evvmId) "newAgent" (newAgentMessage d a n) g c = true
  | .doUpd snd c i d a n g =>
      (s.agents i).agentId ≠ 0 ∧ snd = (s.agents i).agentAddress ∧
      signatureVerification (toString evvmId) "updateAgent" (updateAgentMessage i d a n) g c = true

/-- Consistency invariant of the identity store: ids below the counter are the
only live slots, every live record carries its own key as id, and the domain
and address indexes are exactly the inverse of the record fields. -/
def IdInv (s : IdState) : Prop :=
  1 ≤ s.agentIdCounter ∧
  (∀ i, s.agentIdCounter ≤ i → s.agents i = AgentInfo.zero) ∧
  (∀ i, (s.agents i).agentId ≠ 0 → (s.agents i).agentId = i) ∧
  (s.agents 0).agentId = 0 ∧
  (∀ d, s.domainToAgentId d ≠ 0 →
      (s.agents (s.domainToAgentId d)).agentId ≠ 0 ∧
      (s.agents (s.domainToAgentId d)).agentDomain = d) ∧
  (∀ i, (s.agents i).agentId ≠ 0 → s.domainToAgentId ((s.agents i).agentDomain) = i) ∧
  (∀ a, s.addressToAgentId a ≠ 0 →
      (s.agents (s.addressToAgentId a)).agentId ≠ 0 ∧
      (s.agents (s.addressToAgentId a)).agentAddress = a) ∧
  (∀ i, (s.agents i).agentId ≠ 0 → s.addressToAgentId ((s.agents i).agentAddress) = i)

/-- Signature for a no-change updateAgent call on agent 1 (nonce 3). -/
def sigUpdNoop : Sig := ⟨"1", "updateAgent", updateAgentMessage 1 "" 0 3, 100⟩

/-- Signature for an updateAgent call setting agent 1's domain to its own
current domain (nonce 3). -/
def sigUpdOwnDomain : Sig :=
  ⟨"1", "updateAgent", updateAgentMessage 1 "a.example.com" 0 3, 100⟩

/-- Signature over the acceptFeedback message for pair (1,2), nonce 5, issued
under the function name the contract actually verifies against. -/
def sigAcceptUpd : Sig := ⟨"1", "updateAgent", acceptFeedbackMessage 1 2 5, 100⟩

/-- Signature over the same acceptFeedback message, issued under the function
name of the operation itself. -/
def sigAcceptOwn : Sig := ⟨"1", "acceptFeedback", acceptFeedbackMessage 1 2 5, 100⟩

/-- Signature of principal 100 registering agent 2 with nonce 1 (a nonce
reuse relative to sigNewA). -/
def sigNewB1 : Sig := ⟨"1", "newAgent", newAgentMessage "b.example.com" 8 1, 100⟩

/-- Signature for a late second validation response attempt (score 50, nonce 9). -/
def sigResp50 : Sig := ⟨"1", "updateAgent", validationResponseMessage 5 50 9, 100⟩

/-- A ValidationRegistry mutating call with all of its arguments, including
the height at which it executes. -/
inductive ValOp where
  | doReq (blockNumber client agentValidatorId agentServerId dataHash nonce : Nat)
      (signature : Sig)
  | doResp (blockNumber sender client dataHash response nonce : Nat) (signature : Sig)

/-- The signing principal of a ValidationRegistry call. -/
def ValOp.client : ValOp → Nat
  | .doReq _ c _ _ _ _ _ => c
  | .doResp _ _ c _ _ _ _ => c

/-- The nonce of a ValidationRegistry call. -/
def ValOp.nonce : ValOp → Nat
  | .doReq _ _ _ _ _ n _ => n
  | .doResp _ _ _ _ _ n _ => n

/-- Outcome and post-state of a ValidationRegistry call. -/
def valOpOutcome (evvmId : Nat) (idS : IdState) (s : ValState) :
    ValOp → Except Err Unit × ValState
  | .doReq bn c vid sid dh n g => validationRequest evvmId bn idS s c vid sid dh n g
  | .doResp bn snd c dh r n g => validationResponse evvmId bn snd idS s c dh r n g

/-- Post-state of a ValidationRegistry call. -/
def applyValOp (evvmId : Nat) (idS : IdState) (s : ValState) (op : ValOp) : ValState :=
  (valOpOutcome evvmId idS s op).2

/-- Whether a ValidationRegistry call, run on state s, takes a branch that
consumes its nonce: a response always does, and a request does exactly when
no unexpired request is stored for its dataHash (the create/overwrite
branch, as opposed to the idempotent retry). -/
def valOpConsumesBranch (s : ValState) : ValOp → Prop
  | .doReq bn _ _ _ dh _ _ =>
      (s.validationRequests dh).dataHash = 0 ∨
      bn > (s.validationRequests dh).timestamp + EXPIRATION_SLOTS
  | .doResp _ _ _ _ _ _ _ => True

/-- The checks a ValidationRegistry call evaluates before its nonce check, in
source order: for a request the dataHash, agent-existence and signature
checks; for a response the range, existence, expiry, responded and signature
checks. -/
def valPrenonceChecksPass (evvmId : Nat) (idS : IdState) (s : ValState) : ValOp → Prop
  | .doReq _ c vid sid dh n g =>
      dh ≠ 0 ∧ agentExists idS vid = true ∧ agentExists idS sid = true ∧
      signatureVerification (toString evvmId) "updateAgent"
        (validationRequestMessage vid sid dh n) g c = true
  | .doResp bn _ c dh r n g =>
      r ≤ 100 ∧ (s.validationRequests dh).dataHash ≠ 0 ∧
      ¬ bn > (s.validationRequests dh).timestamp + EXPIRATION_SLOTS ∧
      (s.validationRequests dh).responded = false ∧
      signatureVerification (toString evvmId) "updateAgent"
        (validationResponseMessage dh r n) g c = true

/-- Signature over the acceptFeedback message for the reversed pair (2,1),
nonce 5, under the function name the contract verifies against. -/
def sigAcceptRev : Sig := ⟨"1", "updateAgent", acceptFeedbackMessage 2 1 5, 100⟩

/-- Signature for a validation request on hash 6 with nonce 1 (a nonce reuse
relative to sigReq1). -/
def sigReq6 : Sig := ⟨"1", "updateAgent", validationRequestMessage 1 2 6 1, 100⟩

lemma upd_eq {α β : Type} [DecidableEq α] (f : α → β) (x : α) (v : β) :
    upd f x v x = v := by
  simp [upd]

lemma upd_ne {α β : Type} [DecidableEq α] (f : α → β) {x y : α} (v : β)
    (h : y ≠ x) : upd f x v y = f y := by
  simp [upd, h]

lemma newAgent_error_frame (evvmId msgValue : Nat) (s : IdState) (client : Nat)
    (agentDomain : String) (agentAddress nonce : Nat) (signature : Sig) (e : Err)
    (h : (newAgent evvmId msgValue s client agentDomain agentAddress nonce signature).1 = .error e) :
    (newAgent evvmId msgValue s client agentDomain agentAddress nonce signature).2 = s := by
  unfold newAgent at h ⊢
  split_ifs at h ⊢ <;> simp_all

lemma updateAgent_error_frame (evvmId sender : Nat) (s : IdState)
    (client agentId : Nat) (newAgentDomain : String) (newAgentAddress nonce : Nat)
    (signature : Sig) (e : Err)
    (h : (updateAgent evvmId sender s client agentId newAgentDomain newAgentAddress nonce signature).1 = .error e) :
    (updateAgent evvmId sender s client agentId newAgentDomain newAgentAddress nonce signature).2 = s := by
  unfold updateAgent at h ⊢
  split_ifs at h ⊢ <;> try simp_all
  all_goals split_ifs at h ⊢ <;> simp_all

lemma acceptFeedback_error_frame (evvmId sender authIdEntropy : Nat)
    (idS : IdState) (s : RepState) (client agentClientId agentServerId nonce : Nat)
    (signature : Sig) (e : Err)
    (h : (acceptFeedback evvmId sender authIdEntropy idS s client agentClientId agentServerId nonce signature).1 = .error e) :
    (acceptFeedback evvmId sender authIdEntropy idS s client agentClientId agentServerId nonce signature).2 = s := by
  unfold acceptFeedback at h ⊢
  split_ifs at h ⊢ <;> first
    | rfl
    | (cases hga : getAgent idS agentServerId <;> simp_all <;> split_ifs at h ⊢ <;> simp_all)

lemma validationRequest_error_frame (evvmId blockNumber : Nat) (idS : IdState)
    (s : ValState) (client agentValidatorId agentServerId dataHash nonce : Nat)
    (signature : Sig) (e : Err)
    (h : (validationRequest evvmId blockNumber idS s client agentValidatorId agentServerId dataHash nonce signature).1 = .error e) :
    (validationRequest evvmId blockNumber idS s client agentValidatorId agentServerId dataHash nonce signature).2 = s := by
  unfold validationRequest at h ⊢
  split_ifs at h ⊢ <;> simp_all

lemma validationResponse_error_frame (evvmId blockNumber sender : Nat)
    (idS : IdState) (s : ValState) (client dataHash response nonce : Nat)
    (signature : Sig) (e : Err)
    (h : (validationResponse evvmId blockNumber sender idS s client dataHash response nonce signature).1 = .error e) :
    (validationResponse evvmId blockNumber sender idS s client dataHash response nonce signature).2 = s := by
  unfold validationResponse at h ⊢
  split_ifs at h ⊢ <;> first
    | rfl
    | (cases hga : getAgent idS (s.validationRequests dataHash).agentValidatorId <;>
        simp_all <;> split_ifs at h ⊢ <;> simp_all)

/-- C4: every mutating operation of every registry is all-or-nothing: whenever
a call fails with a typed error, the registry state it returns is exactly the
state it was given (all preconditions are checked before any mutation). -/
theorem registry_mutations_atomic :
    (∀ evvmId msgValue s client agentDomain agentAddress nonce signature e,
      (newAgent evvmId msgValue s client agentDomain agentAddress nonce signature).1 = .error e →
      (newAgent evvmId msgValue s client agentDomain agentAddress nonce signature).2 = s) ∧
    (∀ evvmId sender s client agentId newAgentDomain newAgentAddress nonce signature e,
      (updateAgent evvmId sender s client agentId newAgentDomain newAgentAddress nonce signature).1 = .error e →
      (updateAgent evvmId sender s client agentId newAgentDomain newAgentAddress nonce signature).2 = s) ∧
    (∀ evvmId sender authIdEntropy idS s client agentClientId agentServerId nonce signature e,
      (acceptFeedback evvmId sender authIdEntropy idS s client agentClientId agentServerId nonce signature).1 = .error e →
      (acceptFeedback evvmId sender authIdEntropy idS s client agentClientId agentServerId nonce signature).2 = s) ∧
    (∀ evvmId blockNumber idS s client agentValidatorId agentServerId dataHash nonce signature e,
      (validationRequest evvmId blockNumber idS s client agentValidatorId agentServerId dataHash nonce signature).1 = .error e →
      (validationRequest evvmId blockNumber idS s client agentValidatorId agentServerId dataHash nonce signature).2 = s) ∧
    (∀ evvmId blockNumber sender idS s client dataHash response nonce signature e,
      (validationResponse evvmId blockNumber sender idS s client dataHash response nonce signature).1 = .error e →
      (validationResponse evvmId blockNumber sender idS s client dataHash response nonce signature).2 = s) :=
  ⟨newAgent_error_frame, updateAgent_error_frame, acceptFeedback_error_frame,
   validationRequest_error_frame, validationResponse_error_frame⟩

/-- Witness for C4: a newAgent call with the wrong fee fails and returns the
initial state unchanged. -/
theorem registry_mutations_atomic_witness :
    (newAgent 1 0 initialIdState 100 "a.example.com" 7 1 sigNewA).2 = initialIdState :=
  registry_mutations_atomic.1 1 0 initialIdState 100 "a.example.com" 7 1 sigNewA
    Err.InsufficientFee (by rfl)

/-- C5: newAgent evaluates its preconditions in exactly the spec's order,
failing with the first violated one: fee (InsufficientFee), domain non-empty
(InvalidDomain), address non-null (InvalidAddress), domain unclaimed
(DomainAlreadyRegistered), address unclaimed (AddressAlreadyRegistered),
signature (InvalidSignature), nonce (NonceAlreadyUsed); the spec names these
FeeMismatch, InvalidInput, InvalidInput, Conflict, Conflict, InvalidSignature,
Replay respectively. -/
theorem newAgent_check_order (evvmId msgValue : Nat) (s : IdState) (client : Nat)
    (agentDomain : String) (agentAddress nonce : Nat) (signature : Sig) :
    (msgValue ≠ REGISTRATION_FEE →
      (newAgent evvmId msgValue s client agentDomain agentAddress nonce signature).1 =
        .error .InsufficientFee) ∧
    (msgValue = REGISTRATION_FEE → agentDomain.length = 0 →
      (newAgent evvmId msgValue s client agentDomain agentAddress nonce signature).1 =
        .error .InvalidDomain) ∧
    (msgValue = REGISTRATION_FEE → agentDomain.length ≠ 0 → agentAddress = 0 →
      (newAgent evvmId msgValue s client agentDomain agentAddress nonce signature).1 =
        .error .InvalidAddress) ∧
    (msgValue = REGISTRATION_FEE → agentDomain.length ≠ 0 → agentAddress ≠ 0 →
      s.domainToAgentId agentDomain ≠ 0 →
      (newAgent evvmId msgValue s client agentDomain agentAddress nonce signature).1 =
        .error .DomainAlreadyRegistered) ∧
    (msgValue = REGISTRATION_FEE → agentDomain.length ≠ 0 → agentAddress ≠ 0 →
      s.domainToAgentId agentDomain = 0 → s.addressToAgentId agentAddress ≠ 0 →
      (newAgent evvmId msgValue s client agentDomain agentAddress nonce signature).1 =
        .error .AddressAlreadyRegistered) ∧
    (msgValue = REGISTRATION_FEE → agentDomain.length ≠ 0 → agentAddress ≠ 0 →
      s.domainToAgentId agentDomain = 0 → s.addressToAgentId agentAddress = 0 →
      signatureVerification (toString evvmId) "newAgent"
        (newAgentMessage agentDomain agentAddress nonce) signature client = false →
      (newAgent evvmId msgValue s client agentDomain agentAddress nonce signature).1 =
        .error .InvalidSignature) ∧
    (msgValue = REGISTRATION_FEE → agentDomain.length ≠ 0 → agentAddress ≠ 0 →
      s.domainToAgentId agentDomain = 0 → s.addressToAgentId agentAddress = 0 →
      signatureVerification (toString evvmId) "newAgent"
        (newAgentMessage agentDomain agentAddress nonce) signature client = true →
      s.checkAsyncNonce client nonce = true →
      (newAgent evvmId msgValue s client agentDomain agentAddress nonce signature).1 =
        .error .NonceAlreadyUsed) := by
  refine ⟨?_, ?_, ?_, ?_, ?_, ?_, ?_⟩ <;> intros <;> simp_all [newAgent]

/-- Witness for C5: with every precondition violated at once (zero fee, empty
domain, null address, used-up state), the error reported is the fee error,
the first in the spec's order. -/
theorem newAgent_check_order_witness :
    (newAgent 1 0 initialIdState 100 "" 0 1 sigNewA).1 = .error .InsufficientFee :=
  (newAgent_check_order 1 0 initialIdState 100 "" 0 1 sigNewA).1 (by decide)

/-- C10: an updateAgent call with empty newDomain and null newAddress that
passes the existence, authorization, signature and nonce checks succeeds,
returns true, and its only state effect is consuming the nonce for the
signing principal: records and both indexes are untouched. -/
theorem updateAgent_noop_only_consumes_nonce (evvmId sender : Nat) (s : IdState)
    (client agentId nonce : Nat) (signature : Sig)
    (hex : (s.agents agentId).agentId ≠ 0)
    (hauth : sender = (s.agents agentId).agentAddress)
    (hsig : signatureVerification (toString evvmId) "updateAgent"
      (updateAgentMessage agentId "" 0 nonce) signature client = true)
    (hnonce : s.checkAsyncNonce client nonce = false) :
    updateAgent evvmId sender s client agentId "" 0 nonce signature =
      (.ok true, { s with checkAsyncNonce := upd2 s.checkAsyncNonce client nonce true }) := by
  unfold updateAgent
  simp [hex, hauth, hsig, hnonce]

/-- Witness for C10: a concrete no-change update of agent 1 succeeds and only
marks nonce 3 used. -/
theorem updateAgent_noop_only_consumes_nonce_witness :
    updateAgent 1 7 idStateA 100 1 "" 0 3 sigUpdNoop =
      (.ok true, { idStateA with
        checkAsyncNonce := upd2 idStateA.checkAsyncNonce 100 3 true }) :=
  updateAgent_noop_only_consumes_nonce 1 7 idStateA 100 1 3 sigUpdNoop
    (by decide) (by decide) (by decide) (by decide)

/-- C7: a successful validationRequest for a dataHash that already has a
stored request leaves the whole state (in particular the stored record and
its creation height) unchanged when the current height is within the
expiration window of the stored request, and replaces the record with the
new validator/server ids, the current height and responded = false when the
window has passed. -/
theorem validationRequest_retry_or_overwrite (evvmId blockNumber : Nat)
    (idS : IdState) (s : ValState)
    (client agentValidatorId agentServerId dataHash nonce : Nat) (signature : Sig)
    (hstored : (s.validationRequests dataHash).dataHash ≠ 0)
    (hok : (validationRequest evvmId blockNumber idS s client agentValidatorId
      agentServerId dataHash nonce signature).1 = .ok ()) :
    (blockNumber ≤ (s.validationRequests dataHash).timestamp + EXPIRATION_SLOTS →
      (validationRequest evvmId blockNumber idS s client agentValidatorId
        agentServerId dataHash nonce signature).2 = s) ∧
    (blockNumber > (s.validationRequests dataHash).timestamp + EXPIRATION_SLOTS →
      ((validationRequest evvmId blockNumber idS s client agentValidatorId
        agentServerId dataHash nonce signature).2).validationRequests dataHash =
        ⟨agentValidatorId, agentServerId, dataHash, blockNumber, false⟩) := by
  unfold validationRequest at hok ⊢
  split_ifs at hok ⊢ <;> simp_all [upd_eq]

/-- Witness for C7: re-requesting hash 5 at height 20, within the window of
the stored request created at height 10, changes nothing. -/
theorem validationRequest_retry_or_overwrite_witness :
    (validationRequest 1 20 idStateAB valStateReq 100 1 2 5 77 sigReq77).2 = valStateReq :=
  (validationRequest_retry_or_overwrite 1 20 idStateAB valStateReq 100 1 2 5 77 sigReq77
    (by decide) (by rfl)).1 (by decide)

/-- Counterexample for C3: after a successful validationResponse stored score
40 for hash 5, a fresh validationRequest past the expiration window resets
responded to false, and a further validationResponse succeeds and overwrites
the stored score with 90 — the score is not written exactly once per dataHash. -/
theorem validation_score_overwritten_counterexample :
    getValidationResponse valStateResp 5 = (true, 40) ∧
    (validationResponse 1 1020 7 idStateAB valStateReq2 100 5 90 4 sigResp90).1 = .ok () ∧
    getValidationResponse valStateResp2 5 = (true, 90) :=
  ⟨rfl, rfl, rfl⟩

/-- C3 amended: while the stored request for a dataHash is unexpired and
already marked responded, any further validationResponse fails Conflict
(ValidationAlreadyResponded) and changes nothing; the write-once guarantee is
per stored request only, since after expiry a fresh validationRequest resets
responded and a later response may overwrite the score. -/
theorem validationResponse_conflict_while_live (evvmId blockNumber sender : Nat)
    (idS : IdState) (s : ValState) (client dataHash response nonce : Nat)
    (signature : Sig)
    (hrange : response ≤ 100)
    (hex : (s.validationRequests dataHash).dataHash ≠ 0)
    (hlive : blockNumber ≤ (s.validationRequests dataHash).timestamp + EXPIRATION_SLOTS)
    (hresp : (s.validationRequests dataHash).responded = true) :
    validationResponse evvmId blockNumber sender idS s client dataHash response nonce signature =
      (.error .ValidationAlreadyResponded, s) := by
  have h1 : ¬ response > 100 := by omega
  have h2 : ¬ blockNumber > (s.validationRequests dataHash).timestamp + EXPIRATION_SLOTS := by
    omega
  unfold validationResponse
  simp [h1, h2, hex, hresp]

/-- Witness for C3 amended: a second response attempt against the live,
already-responded request for hash 5 fails Conflict and changes nothing. -/
theorem validationResponse_conflict_while_live_witness :
    validationResponse 1 30 7 idStateAB valStateResp 100 5 50 9 sigResp50 =
      (.error .ValidationAlreadyResponded, valStateResp) :=
  validationResponse_conflict_while_live 1 30 7 idStateAB valStateResp 100 5 50 9 sigResp50
    (by decide) (by decide) (by decide) (by decide)

/-- Counterexample for C1: a validationRequest that passes the dataHash,
agent-existence and signature checks and takes the idempotent-retry branch
succeeds but does NOT consume its nonce: nonce 77 is still unused afterwards. -/
theorem validationRequest_retry_nonce_unconsumed_counterexample :
    (validationRequest 1 20 idStateAB valStateReq 100 1 2 5 77 sigReq77).1 = .ok () ∧
    ((validationRequest 1 20 idStateAB valStateReq 100 1 2 5 77 sigReq77).2).checkAsyncNonce 100 77 = false :=
  ⟨rfl, rfl⟩

/-- C1 amended: the nonce is checked in both branches — a used nonce fails
Replay even when an unexpired request exists — but it is consumed only on the
create/overwrite branch; the idempotent-retry branch returns with the entire
state, nonce set included, unchanged. -/
theorem validationRequest_nonce_check_and_consumption (evvmId blockNumber : Nat)
    (idS : IdState) (s : ValState)
    (client agentValidatorId agentServerId dataHash nonce : Nat) (signature : Sig) :
    (dataHash ≠ 0 → agentExists idS agentValidatorId = true →
      agentExists idS agentServerId = true →
      signatureVerification (toString evvmId) "updateAgent"
        (validationRequestMessage agentValidatorId agentServerId dataHash nonce)
        signature client = true →
      s.checkAsyncNonce client nonce = true →
      validationRequest evvmId blockNumber idS s client agentValidatorId
        agentServerId dataHash nonce signature = (.error .NonceAlreadyUsed, s)) ∧
    ((s.validationRequests dataHash).dataHash ≠ 0 →
      blockNumber ≤ (s.validationRequests dataHash).timestamp + EXPIRATION_SLOTS →
      (validationRequest evvmId blockNumber idS s client agentValidatorId
        agentServerId dataHash nonce signature).1 = .ok () →
      (validationRequest evvmId blockNumber idS s client agentValidatorId
        agentServerId dataHash nonce signature).2 = s) ∧
    ((validationRequest evvmId blockNumber idS s client agentValidatorId
        agentServerId dataHash nonce signature).1 = .ok () →
      ((s.validationRequests dataHash).dataHash = 0 ∨
        blockNumber > (s.validationRequests dataHash).timestamp + EXPIRATION_SLOTS) →
      ((validationRequest evvmId blockNumber idS s client agentValidatorId
        agentServerId dataHash nonce signature).2).checkAsyncNonce client nonce = true) := by
  refine ⟨?_, ?_, ?_⟩
  · intro h0 hv hs hsig hn
    unfold validationRequest
    simp [h0, hv, hs, hsig, hn]
  · intro hstored hwin hok
    unfold validationRequest at hok ⊢
    split_ifs at hok ⊢ <;> simp_all
  · intro hok hfresh
    unfold validationRequest at hok ⊢
    split_ifs at hok ⊢ <;> simp_all [upd2] <;> omega

/-- Witness for C1 amended: on the retry branch a used nonce (1) is rejected
Replay; the successful retry with fresh nonce 77 leaves the state unchanged;
and the state-creating call that consumed nonce 1 did mark it used. -/
theorem validationRequest_nonce_check_and_consumption_witness :
    validationRequest 1 20 idStateAB valStateReq 100 1 2 5 1 sigReq1 =
      (.error .NonceAlreadyUsed, valStateReq) ∧
    (validationRequest 1 20 idStateAB valStateReq 100 1 2 5 77 sigReq77).2 = valStateReq ∧
    ((validationRequest 1 10 idStateAB initialValState 100 1 2 5 1 sigReq1).2).checkAsyncNonce 100 1 = true :=
  ⟨(validationRequest_nonce_check_and_consumption 1 20 idStateAB valStateReq 100 1 2 5 1 sigReq1).1
      (by decide) (by rfl) (by rfl) (by rfl) (by rfl),
   (validationRequest_nonce_check_and_consumption 1 20 idStateAB valStateReq 100 1 2 5 77 sigReq77).2.1
      (by decide) (by decide) (by rfl),
   (validationRequest_nonce_check_and_consumption 1 10 idStateAB initialValState 100 1 2 5 1 sigReq1).2.2
      (by rfl) (by decide)⟩

/-- Counterexample for C2: acceptFeedback verifies signatures against the
function name updateAgent, not its own name: a call whose signature was
issued for functionName updateAgent succeeds, while the identical call whose
signature names acceptFeedback itself is rejected InvalidSignature. -/
theorem acceptFeedback_functionName_counterexample :
    (acceptFeedback 1 8 999 idStateAB initialRepState 100 1 2 5 sigAcceptUpd).1 = .ok () ∧
    sigAcceptUpd.functionName = "updateAgent" ∧
    (acceptFeedback 1 8 999 idStateAB initialRepState 100 1 2 5 sigAcceptOwn).1 =
      .error .InvalidSignature ∧
    sigAcceptOwn.functionName = "acceptFeedback" :=
  ⟨rfl, rfl, rfl, rfl⟩

lemma sigVerification_functionName {p f m : String} {g : Sig} {c : Nat}
    (h : signatureVerification p f m g c = true) : g.functionName = f := by
  simp only [signatureVerification, Bool.and_eq_true, beq_iff_eq] at h
  exact h.1.1.2

/-- C2 amended: the functionName the signature verifier binds is newAgent for
newAgent and updateAgent for updateAgent, but acceptFeedback,
validationRequest and validationResponse all bind the literal updateAgent
rather than their own operation name: any successful call forces the
signature's functionName component to those values. -/
theorem operation_functionName_binding :
    (∀ evvmId msgValue s client agentDomain agentAddress nonce signature agentId,
      (newAgent evvmId msgValue s client agentDomain agentAddress nonce signature).1 = .ok agentId →
      signature.functionName = "newAgent") ∧
    (∀ evvmId sender s client agentId newAgentDomain newAgentAddress nonce signature b,
      (updateAgent evvmId sender s client agentId newAgentDomain newAgentAddress nonce signature).1 = .ok b →
      signature.functionName = "updateAgent") ∧
    (∀ evvmId sender authIdEntropy idS s client agentClientId agentServerId nonce signature,
      (acceptFeedback evvmId sender authIdEntropy idS s client agentClientId agentServerId nonce signature).1 = .ok () →
      signature.functionName = "updateAgent") ∧
    (∀ evvmId blockNumber idS s client agentValidatorId agentServerId dataHash nonce signature,
      (validationRequest evvmId blockNumber idS s client agentValidatorId agentServerId dataHash nonce signature).1 = .ok () →
      signature.functionName = "updateAgent") ∧
    (∀ evvmId blockNumber sender idS s client dataHash response nonce signature,
      (validationResponse evvmId blockNumber sender idS s client dataHash response nonce signature).1 = .ok () →
      signature.functionName = "updateAgent") := by
  refine ⟨?_, ?_, ?_, ?_, ?_⟩
  · intro evvmId msgValue s client agentDomain agentAddress nonce signature agentId h
    rcases Bool.eq_false_or_eq_true (signatureVerification (toString evvmId) "newAgent"
        (newAgentMessage agentDomain agentAddress nonce) signature client) with hsig | hsig
    · exact sigVerification_functionName hsig
    · exfalso
      unfold newAgent at h
      try dsimp only at h
      split_ifs at h <;> simp_all
  · intro evvmId sender s client agentId newAgentDomain newAgentAddress nonce signature b h
    rcases Bool.eq_false_or_eq_true (signatureVerification (toString evvmId) "updateAgent"
        (updateAgentMessage agentId newAgentDomain newAgentAddress nonce) signature client) with hsig | hsig
    · exact sigVerification_functionName hsig
    · exfalso
      unfold updateAgent at h
      try dsimp only at h
      split_ifs at h <;> simp_all
  · intro evvmId sender authIdEntropy idS s client agentClientId agentServerId nonce signature h
    rcases Bool.eq_false_or_eq_true (signatureVerification (toString evvmId) "updateAgent"
        (acceptFeedbackMessage agentClientId agentServerId nonce) signature client) with hsig | hsig
    · exact sigVerification_functionName hsig
    · exfalso
      unfold acceptFeedback at h
      try dsimp only at h
      split_ifs at h <;> simp_all
  · intro evvmId blockNumber idS s client agentValidatorId agentServerId dataHash nonce signature h
    rcases Bool.eq_false_or_eq_true (signatureVerification (toString evvmId) "updateAgent"
        (validationRequestMessage agentValidatorId agentServerId dataHash nonce) signature client) with hsig | hsig
    · exact sigVerification_functionName hsig
    · exfalso
      unfold validationRequest at h
      try dsimp only at h
      split_ifs at h <;> simp_all
  · intro evvmId blockNumber sender idS s client dataHash response nonce signature h
    rcases Bool.eq_false_or_eq_true (signatureVerification (toString evvmId) "updateAgent"
        (validationResponseMessage dataHash response nonce) signature client) with hsig | hsig
    · exact sigVerification_functionName hsig
    · exfalso
      unfold validationResponse at h
      try dsimp only at h
      split_ifs at h <;> simp_all

/-- Witness for C2 amended: concrete successful calls of all five operations,
with the functionName each signature was forced to carry. -/
theorem operation_functionName_binding_witness :
    sigNewA.functionName = "newAgent" ∧
    sigUpdNoop.functionName = "updateAgent" ∧
    sigAcceptUpd.functionName = "updateAgent" ∧
    sigReq1.functionName = "updateAgent" ∧
    sigResp40.functionName = "updateAgent" :=
  ⟨operation_functionName_binding.1 1 REGISTRATION_FEE initialIdState 100 "a.example.com" 7 1 sigNewA 1 (by rfl),
   operation_functionName_binding.2.1 1 7 idStateA 100 1 "" 0 3 sigUpdNoop true (by rfl),
   operation_functionName_binding.2.2.1 1 8 999 idStateAB initialRepState 100 1 2 5 sigAcceptUpd (by rfl),
   operation_functionName_binding.2.2.2.1 1 10 idStateAB initialValState 100 1 2 5 1 sigReq1 (by rfl),
   operation_functionName_binding.2.2.2.2 1 20 7 idStateAB valStateReq 100 5 40 2 sigResp40 (by rfl)⟩

/-- Counterexample for C6: an otherwise-valid updateAgent call whose
newDomain equals the agent's own current domain fails Conflict
(DomainAlreadyRegistered), contrary to the claim that only a domain claimed
by a different agent conflicts. -/
theorem updateAgent_own_domain_conflict_counterexample :
    (idStateA.agents 1).agentDomain = "a.example.com" ∧
    (updateAgent 1 7 idStateA 100 1 "a.example.com" 0 3 sigUpdOwnDomain).1 =
      .error .DomainAlreadyRegistered :=
  ⟨rfl, rfl⟩

/-- C6 amended: for a call passing the existence, authorization, signature
and nonce checks, updateAgent fails DomainAlreadyRegistered exactly when the
non-empty newDomain is claimed by any agent — the updated agent itself
included — and AddressAlreadyRegistered exactly when the domain conflict did
not fire and the non-null newAddress is claimed by any agent, itself included. -/
theorem updateAgent_conflict_iff_claimed (evvmId sender : Nat) (s : IdState)
    (client agentId : Nat) (newAgentDomain : String) (newAgentAddress nonce : Nat)
    (signature : Sig)
    (hex : (s.agents agentId).agentId ≠ 0)
    (hauth : sender = (s.agents agentId).agentAddress)
    (hsig : signatureVerification (toString evvmId) "updateAgent"
      (updateAgentMessage agentId newAgentDomain newAgentAddress nonce) signature client = true)
    (hnonce : s.checkAsyncNonce client nonce = false) :
    ((updateAgent evvmId sender s client agentId newAgentDomain newAgentAddress nonce signature).1 =
        .error .DomainAlreadyRegistered ↔
      newAgentDomain.length > 0 ∧ s.domainToAgentId newAgentDomain ≠ 0) ∧
    ((updateAgent evvmId sender s client agentId newAgentDomain newAgentAddress nonce signature).1 =
        .error .AddressAlreadyRegistered ↔
      ¬ (newAgentDomain.length > 0 ∧ s.domainToAgentId newAgentDomain ≠ 0) ∧
      (newAgentAddress ≠ 0 ∧ s.addressToAgentId newAgentAddress ≠ 0)) := by
  unfold updateAgent
  simp only [hex, hauth, hsig, hnonce]
  split_ifs <;> simp_all

/-- Witness for C6 amended: at the concrete own-domain input the domain
conflict fires because the index maps a.example.com to agent 1 itself. -/
theorem updateAgent_conflict_iff_claimed_witness :
    ((updateAgent 1 7 idStateA 100 1 "a.example.com" 0 3 sigUpdOwnDomain).1 =
        .error .DomainAlreadyRegistered ↔
      ("a.example.com").length > 0 ∧ idStateA.domainToAgentId "a.example.com" ≠ 0) ∧
    ((updateAgent 1 7 idStateA 100 1 "a.example.com" 0 3 sigUpdOwnDomain).1 =
        .error .AddressAlreadyRegistered ↔
      ¬ (("a.example.com").length > 0 ∧ idStateA.domainToAgentId "a.example.com" ≠ 0) ∧
      ((0 : Nat) ≠ 0 ∧ idStateA.addressToAgentId 0 ≠ 0)) :=
  updateAgent_conflict_iff_claimed 1 7 idStateA 100 1 "a.example.com" 0 3 sigUpdOwnDomain
    (by decide) (by decide) (by decide) (by decide)

/-- Counterexample for C8: on the ValidationRegistry, two otherwise-valid
mutating calls by principal 100 reusing nonce 77 both succeed — the first
takes the idempotent-retry branch without consuming the nonce, so the second
does not fail Replay. -/
theorem nonce_reuse_not_always_replay_counterexample :
    (validationRequest 1 20 idStateAB valStateReq 100 1 2 5 77 sigReq77).1 = .ok () ∧
    (validationRequest 1 21 idStateAB
        (validationRequest 1 20 idStateAB valStateReq 100 1 2 5 77 sigReq77).2
        100 1 2 5 77 sigReq77).1 = .ok () :=
  ⟨rfl, rfl⟩

lemma newAgent_ok_consumes_nonce (evvmId mv : Nat) (s : IdState) (c : Nat)
    (d : String) (a n : Nat) (g : Sig) (r : Nat)
    (h : (newAgent evvmId mv s c d a n g).1 = .ok r) :
    (newAgent evvmId mv s c d a n g).2.checkAsyncNonce c n = true := by
  unfold newAgent at h ⊢
  split_ifs at h ⊢ <;> simp_all [upd2]

lemma updateAgent_ok_consumes_nonce (evvmId snd : Nat) (s : IdState)
    (c i : Nat) (d : String) (a n : Nat) (g : Sig) (b : Bool)
    (h : (updateAgent evvmId snd s c i d a n g).1 = .ok b) :
    (updateAgent evvmId snd s c i d a n g).2.checkAsyncNonce c n = true := by
  unfold updateAgent at h ⊢
  split_ifs at h ⊢ <;> try simp_all
  all_goals split_ifs at h ⊢ <;> simp_all [upd2]

lemma idOp_ok_consumes_nonce (evvmId : Nat) (s : IdState) (op : IdOp)
    (h : (idOpOutcome evvmId s op).1 = .ok ()) :
    (applyIdOp evvmId s op).checkAsyncNonce op.client op.nonce = true := by
  cases op with
  | doNew mv c d a n g =>
    replace h : Except.map (fun _ => ()) (newAgent evvmId mv s c d a n g).1 = .ok () := h
    show (newAgent evvmId mv s c d a n g).2.checkAsyncNonce c n = true
    cases hx : (newAgent evvmId mv s c d a n g).1 with
    | error e => rw [hx] at h; simp [Except.map] at h
    | ok r => exact newAgent_ok_consumes_nonce evvmId mv s c d a n g r hx
  | doUpd snd c i d a n g =>
    replace h : Except.map (fun _ => ()) (updateAgent evvmId snd s c i d a n g).1 = .ok () := h
    show (updateAgent evvmId snd s c i d a n g).2.checkAsyncNonce c n = true
    cases hx : (updateAgent evvmId snd s c i d a n g).1 with
    | error e => rw [hx] at h; simp [Except.map] at h
    | ok b => exact updateAgent_ok_consumes_nonce evvmId snd s c i d a n g b hx

/-- Helper for the replay guarantee on the IdentityRegistry: after a
successful call consuming (principal, nonce), a second call reusing the pair
that passes every pre-nonce check fails NonceAlreadyUsed with the state
unchanged. -/
lemma idOps_replay_blocked (evvmId : Nat) (s : IdState) (op1 op2 : IdOp)
    (hc : op2.client = op1.client) (hn : op2.nonce = op1.nonce)
    (h1 : (idOpOutcome evvmId s op1).1 = .ok ())
    (h2 : prenonceChecksPass evvmId (applyIdOp evvmId s op1) op2) :
    idOpOutcome evvmId (applyIdOp evvmId s op1) op2 =
      (.error .NonceAlreadyUsed, applyIdOp evvmId s op1) := by
  have hused := idOp_ok_consumes_nonce evvmId s op1 h1
  cases op2 with
  | doNew mv c d a n g =>
    obtain ⟨hfee, hd, ha, hdom, haddr, hsig⟩ := h2
    simp only [IdOp.client] at hc
    simp only [IdOp.nonce] at hn
    have hcn : (applyIdOp evvmId s op1).checkAsyncNonce c n = true := by
      rw [hc, hn]; exact hused
    simp only [idOpOutcome]
    unfold newAgent
    simp [hfee, hd, ha, hdom, haddr, hsig, hcn, Except.map]
  | doUpd snd c i d a n g =>
    obtain ⟨hex, hauth, hsig⟩ := h2
    simp only [IdOp.client] at hc
    simp only [IdOp.nonce] at hn
    have hcn : (applyIdOp evvmId s op1).checkAsyncNonce c n = true := by
      rw [hc, hn]; exact hused
    simp only [idOpOutcome]
    unfold updateAgent
    simp [hex, hauth, hsig, hcn, Except.map]

lemma acceptFeedback_ok_consumes_nonce (evvmId snd aid : Nat) (idS : IdState)
    (s : RepState) (c cid sid n : Nat) (g : Sig)
    (h : (acceptFeedback evvmId snd aid idS s c cid sid n g).1 = .ok ()) :
    (acceptFeedback evvmId snd aid idS s c cid sid n g).2.checkAsyncNonce c n = true := by
  unfold acceptFeedback at h ⊢
  split_ifs at h ⊢ <;> try simp_all
  all_goals cases hga : getAgent idS sid <;> (try simp_all [upd2]) <;>
    (try split_ifs at h ⊢) <;> try simp_all [upd2]

lemma validationResponse_ok_consumes_nonce (evvmId bn snd : Nat) (idS : IdState)
    (s : ValState) (c dh r n : Nat) (g : Sig)
    (h : (validationResponse evvmId bn snd idS s c dh r n g).1 = .ok ()) :
    (validationResponse evvmId bn snd idS s c dh r n g).2.checkAsyncNonce c n = true := by
  unfold validationResponse at h ⊢
  split_ifs at h ⊢ <;> try simp_all
  all_goals cases hga : getAgent idS (s.validationRequests dh).agentValidatorId <;>
    (try simp_all [upd2]) <;> (try split_ifs at h ⊢) <;> try simp_all [upd2]

lemma validationRequest_create_consumes_nonce (evvmId bn : Nat) (idS : IdState)
    (s : ValState) (c vid sid dh n : Nat) (g : Sig)
    (h : (validationRequest evvmId bn idS s c vid sid dh n g).1 = .ok ())
    (hbr : (s.validationRequests dh).dataHash = 0 ∨
      bn > (s.validationRequests dh).timestamp + EXPIRATION_SLOTS) :
    (validationRequest evvmId bn idS s c vid sid dh n g).2.checkAsyncNonce c n = true := by
  unfold validationRequest at h ⊢
  split_ifs at h ⊢ with hh1 hh2 hh3 hh4 hh5 hh6 <;> try simp_all [upd2]
  all_goals omega

lemma valOp_ok_consumes_nonce (evvmId : Nat) (idS : IdState) (s : ValState)
    (op : ValOp) (h : (valOpOutcome evvmId idS s op).1 = .ok ())
    (hbr : valOpConsumesBranch s op) :
    (applyValOp evvmId idS s op).checkAsyncNonce op.client op.nonce = true := by
  cases op with
  | doReq bn c vid sid dh n g =>
    exact validationRequest_create_consumes_nonce evvmId bn idS s c vid sid dh n g h hbr
  | doResp bn snd c dh r n g =>
    exact validationResponse_ok_consumes_nonce evvmId bn snd idS s c dh r n g h

lemma acceptFeedback_replay_blocked (evvmId snd1 snd2 aid1 aid2 : Nat)
    (idS : IdState) (s : RepState) (client cid1 sid1 cid2 sid2 nonce : Nat)
    (g1 g2 : Sig)
    (h1 : (acceptFeedback evvmId snd1 aid1 idS s client cid1 sid1 nonce g1).1 = .ok ())
    (hc2 : agentExists idS cid2 = true) (hs2 : agentExists idS sid2 = true)
    (hsig : signatureVerification (toString evvmId) "updateAgent"
      (acceptFeedbackMessage cid2 sid2 nonce) g2 client = true) :
    acceptFeedback evvmId snd2 aid2 idS
        (acceptFeedback evvmId snd1 aid1 idS s client cid1 sid1 nonce g1).2
        client cid2 sid2 nonce g2 =
      (.error .NonceAlreadyUsed,
        (acceptFeedback evvmId snd1 aid1 idS s client cid1 sid1 nonce g1).2) := by
  have hcn := acceptFeedback_ok_consumes_nonce evvmId snd1 aid1 idS s client cid1 sid1 nonce g1 h1
  set s1 := (acceptFeedback evvmId snd1 aid1 idS s client cid1 sid1 nonce g1).2 with hs1
  unfold acceptFeedback
  simp [hc2, hs2, hsig, hcn]

lemma valOps_replay_blocked (evvmId : Nat) (idS : IdState) (s : ValState)
    (op1 op2 : ValOp) (hc : op2.client = op1.client) (hn : op2.nonce = op1.nonce)
    (h1 : (valOpOutcome evvmId idS s op1).1 = .ok ())
    (hbr : valOpConsumesBranch s op1)
    (h2 : valPrenonceChecksPass evvmId idS (applyValOp evvmId idS s op1) op2) :
    valOpOutcome evvmId idS (applyValOp evvmId idS s op1) op2 =
      (.error .NonceAlreadyUsed, applyValOp evvmId idS s op1) := by
  have hused := valOp_ok_consumes_nonce evvmId idS s op1 h1 hbr
  cases op2 with
  | doReq bn c vid sid dh n g =>
    obtain ⟨h0, hv, hs2, hsig⟩ := h2
    simp only [ValOp.client] at hc
    simp only [ValOp.nonce] at hn
    have hcn : (applyValOp evvmId idS s op1).checkAsyncNonce c n = true := by
      rw [hc, hn]
      exact hused
    simp only [valOpOutcome]
    unfold validationRequest
    simp [h0, hv, hs2, hsig, hcn]
  | doResp bn snd c dh r n g =>
    obtain ⟨hr, hex, hexp, hresp, hsig⟩ := h2
    simp only [ValOp.client] at hc
    simp only [ValOp.nonce] at hn
    have hcn : (applyValOp evvmId idS s op1).checkAsyncNonce c n = true := by
      rw [hc, hn]
      exact hused
    simp only [valOpOutcome]
    unfold validationResponse
    have hr' : ¬ r > 100 := by omega
    simp [hr', hex, hexp, hresp, hsig, hcn]

/-- C8 amended: every nonce-consuming mutating call blocks reuse of its
(principal, nonce) pair on its registry: on the IdentityRegistry and the
ReputationRegistry every successful mutating call consumes the pair, and on
the ValidationRegistry validationResponse and the create/overwrite branch of
validationRequest do; in each case a second otherwise-valid call on the same
registry reusing the pair fails Replay and returns the first call's
post-state unchanged (the quantified pre-nonce hypotheses state that the
second call passes every check preceding its nonce check).  The sole
exception, shown by the counterexample, is the idempotent-retry branch of
validationRequest, which succeeds without consuming the nonce. -/
theorem registry_nonce_replay_blocked :
    (∀ evvmId (s : IdState) (op1 op2 : IdOp),
      op2.client = op1.client → op2.nonce = op1.nonce →
      (idOpOutcome evvmId s op1).1 = .ok () →
      prenonceChecksPass evvmId (applyIdOp evvmId s op1) op2 →
      idOpOutcome evvmId (applyIdOp evvmId s op1) op2 =
        (.error .NonceAlreadyUsed, applyIdOp evvmId s op1)) ∧
    (∀ evvmId snd1 snd2 aid1 aid2 (idS : IdState) (s : RepState)
        client cid1 sid1 cid2 sid2 nonce (g1 g2 : Sig),
      (acceptFeedback evvmId snd1 aid1 idS s client cid1 sid1 nonce g1).1 = .ok () →
      agentExists idS cid2 = true → agentExists idS sid2 = true →
      signatureVerification (toString evvmId) "updateAgent"
        (acceptFeedbackMessage cid2 sid2 nonce) g2 client = true →
      acceptFeedback evvmId snd2 aid2 idS
          (acceptFeedback evvmId snd1 aid1 idS s client cid1 sid1 nonce g1).2
          client cid2 sid2 nonce g2 =
        (.error .NonceAlreadyUsed,
          (acceptFeedback evvmId snd1 aid1 idS s client cid1 sid1 nonce g1).2)) ∧
    (∀ evvmId (idS : IdState) (s : ValState) (op1 op2 : ValOp),
      op2.client = op1.client → op2.nonce = op1.nonce →
      (valOpOutcome evvmId idS s op1).1 = .ok () →
      valOpConsumesBranch s op1 →
      valPrenonceChecksPass evvmId idS (applyValOp evvmId idS s op1) op2 →
      valOpOutcome evvmId idS (applyValOp evvmId idS s op1) op2 =
        (.error .NonceAlreadyUsed, applyValOp evvmId idS s op1)) :=
  ⟨idOps_replay_blocked, acceptFeedback_replay_blocked, valOps_replay_blocked⟩

/-- Witness for C8 amended: nonce reuse rejected on each registry — a second
registration reusing nonce 1 on the IdentityRegistry, a reversed-pair
acceptFeedback reusing nonce 5 on the ReputationRegistry, and a request for
hash 6 reusing nonce 1 on the ValidationRegistry all fail Replay with the
first call's post-state intact. -/
theorem registry_nonce_replay_blocked_witness :
    idOpOutcome 1 (applyIdOp 1 initialIdState
        (.doNew REGISTRATION_FEE 100 "a.example.com" 7 1 sigNewA))
        (.doNew REGISTRATION_FEE 100 "b.example.com" 8 1 sigNewB1) =
      (.error .NonceAlreadyUsed, applyIdOp 1 initialIdState
        (.doNew REGISTRATION_FEE 100 "a.example.com" 7 1 sigNewA)) ∧
    acceptFeedback 1 7 998 idStateAB
        (acceptFeedback 1 8 999 idStateAB initialRepState 100 1 2 5 sigAcceptUpd).2
        100 2 1 5 sigAcceptRev =
      (.error .NonceAlreadyUsed,
        (acceptFeedback 1 8 999 idStateAB initialRepState 100 1 2 5 sigAcceptUpd).2) ∧
    valOpOutcome 1 idStateAB (applyValOp 1 idStateAB initialValState
        (.doReq 10 100 1 2 5 1 sigReq1)) (.doReq 11 100 1 2 6 1 sigReq6) =
      (.error .NonceAlreadyUsed, applyValOp 1 idStateAB initialValState
        (.doReq 10 100 1 2 5 1 sigReq1)) :=
  ⟨registry_nonce_replay_blocked.1 1 initialIdState
      (.doNew REGISTRATION_FEE 100 "a.example.com" 7 1 sigNewA)
      (.doNew REGISTRATION_FEE 100 "b.example.com" 8 1 sigNewB1)
      (by rfl) (by rfl) (by rfl)
      (by exact ⟨rfl, by decide, by decide, rfl, rfl, rfl⟩),
   registry_nonce_replay_blocked.2.1 1 8 7 999 998 idStateAB initialRepState
      100 1 2 2 1 5 sigAcceptUpd sigAcceptRev (by rfl) (by rfl) (by rfl) (by rfl),
   registry_nonce_replay_blocked.2.2 1 idStateAB initialValState
      (.doReq 10 100 1 2 5 1 sigReq1) (.doReq 11 100 1 2 6 1 sigReq6)
      (by rfl) (by rfl) (by rfl) (by exact Or.inl rfl)
      (by exact ⟨by decide, by rfl, by rfl, by rfl⟩)⟩

lemma inv_nonce_irrelevant (s : IdState) (f : Nat → Nat → Bool) (h : IdInv s) :
    IdInv { s with checkAsyncNonce := f } := h

lemma IdInv_initial : IdInv initialIdState := by
  refine ⟨le_refl 1, ?_, ?_, ?_, ?_, ?_, ?_, ?_⟩ <;> intros <;>
    simp_all [initialIdState, AgentInfo.zero]

lemma inv_set_domain (s : IdState) (k : Nat) (nd : String)
    (hinv : IdInv s) (hk : (s.agents k).agentId ≠ 0) (hnd : s.domainToAgentId nd = 0) :
    IdInv { s with
      domainToAgentId := upd (upd s.domainToAgentId (s.agents k).agentDomain 0) nd k
      agents := upd s.agents k { s.agents k with agentDomain := nd } } := by
  obtain ⟨h1, h2, h3, h4, h5, h6, h7, h8⟩ := hinv
  have hkk : (s.agents k).agentId = k := h3 k hk
  have hk0 : k ≠ 0 := fun he => hk (hkk.trans he)
  have holdidx : s.domainToAgentId (s.agents k).agentDomain = k := h6 k hk
  refine ⟨h1, ?_, ?_, ?_, ?_, ?_, ?_, ?_⟩ <;> dsimp only
  · intro i hi
    have hik : i ≠ k := by
      intro he
      subst he
      have hz := h2 i hi
      rw [hz] at hk
      simp [AgentInfo.zero] at hk
    rw [upd_ne _ _ hik]
    exact h2 i hi
  · intro i hne
    by_cases hik : i = k
    · subst hik
      rw [upd_eq] at hne ⊢
      exact hkk
    · rw [upd_ne _ _ hik] at hne ⊢
      exact h3 i hne
  · have h0k : (0 : Nat) ≠ k := fun he => hk0 he.symm
    rw [upd_ne _ _ h0k]
    exact h4
  · intro d' hne
    by_cases hdnd : d' = nd
    · subst hdnd
      rw [upd_eq] at hne ⊢
      rw [upd_eq]
      exact ⟨hk, rfl⟩
    · rw [upd_ne _ _ hdnd] at hne ⊢
      by_cases hdold : d' = (s.agents k).agentDomain
      · subst hdold
        rw [upd_eq] at hne
        exact absurd rfl hne
      · rw [upd_ne _ _ hdold] at hne ⊢
        obtain ⟨ha, hb⟩ := h5 d' hne
        have hjk : s.domainToAgentId d' ≠ k := by
          intro he
          rw [he] at hb
          exact hdold hb.symm
        rw [upd_ne _ _ hjk]
        exact ⟨ha, hb⟩
  · intro i hne
    by_cases hik : i = k
    · subst hik
      rw [upd_eq]
      show upd (upd s.domainToAgentId (s.agents i).agentDomain 0) nd i nd = i
      rw [upd_eq]
    · rw [upd_ne _ _ hik] at hne ⊢
      have hidx := h6 i hne
      have hdi_nd : (s.agents i).agentDomain ≠ nd := by
        intro he
        rw [he] at hidx
        rw [hnd] at hidx
        have hzi := h3 i hne
        rw [hzi, ← hidx] at hne
        exact hne rfl
      have hdi_old : (s.agents i).agentDomain ≠ (s.agents k).agentDomain := by
        intro he
        rw [he] at hidx
        rw [holdidx] at hidx
        exact hik hidx.symm
      rw [upd_ne _ _ hdi_nd, upd_ne _ _ hdi_old]
      exact hidx
  · intro a hne
    obtain ⟨ha1, ha2⟩ := h7 a hne
    by_cases hjk : s.addressToAgentId a = k
    · rw [hjk] at ha1 ha2
      rw [hjk, upd_eq]
      exact ⟨ha1, ha2⟩
    · rw [upd_ne _ _ hjk]
      exact ⟨ha1, ha2⟩
  · intro i hne
    by_cases hik : i = k
    · subst hik
      rw [upd_eq]
      show s.addressToAgentId (s.agents i).agentAddress = i
      exact h8 i hk
    · rw [upd_ne _ _ hik] at hne ⊢
      exact h8 i hne

lemma inv_set_address (s : IdState) (k na : Nat)
    (hinv : IdInv s) (hk : (s.agents k).agentId ≠ 0) (hna : s.addressToAgentId na = 0) :
    IdInv { s with
      addressToAgentId := upd (upd s.addressToAgentId (s.agents k).agentAddress 0) na k
      agents := upd s.agents k { s.agents k with agentAddress := na } } := by
  obtain ⟨h1, h2, h3, h4, h5, h6, h7, h8⟩ := hinv
  have hkk : (s.agents k).agentId = k := h3 k hk
  have hk0 : k ≠ 0 := fun he => hk (hkk.trans he)
  have holdidx : s.addressToAgentId (s.agents k).agentAddress = k := h8 k hk
  refine ⟨h1, ?_, ?_, ?_, ?_, ?_, ?_, ?_⟩ <;> dsimp only
  · intro i hi
    have hik : i ≠ k := by
      intro he
      subst he
      have hz := h2 i hi
      rw [hz] at hk
      simp [AgentInfo.zero] at hk
    rw [upd_ne _ _ hik]
    exact h2 i hi
  · intro i hne
    by_cases hik : i = k
    · subst hik
      rw [upd_eq] at hne ⊢
      exact hkk
    · rw [upd_ne _ _ hik] at hne ⊢
      exact h3 i hne
  · have h0k : (0 : Nat) ≠ k := fun he => hk0 he.symm
    rw [upd_ne _ _ h0k]
    exact h4
  · intro d' hne
    obtain ⟨ha1, ha2⟩ := h5 d' hne
    by_cases hjk : s.domainToAgentId d' = k
    · rw [hjk] at ha1 ha2
      rw [hjk, upd_eq]
      exact ⟨ha1, ha2⟩
    · rw [upd_ne _ _ hjk]
      exact ⟨ha1, ha2⟩
  · intro i hne
    by_cases hik : i = k
    · subst hik
      rw [upd_eq]
      show s.domainToAgentId (s.agents i).agentDomain = i
      exact h6 i hk
    · rw [upd_ne _ _ hik] at hne ⊢
      exact h6 i hne
  · intro a' hne
    by_cases hana : a' = na
    · subst hana
      rw [upd_eq] at hne ⊢
      rw [upd_eq]
      exact ⟨hk, rfl⟩
    · rw [upd_ne _ _ hana] at hne ⊢
      by_cases haold : a' = (s.agents k).agentAddress
      · subst haold
        rw [upd_eq] at hne
        exact absurd rfl hne
      · rw [upd_ne _ _ haold] at hne ⊢
        obtain ⟨ha, hb⟩ := h7 a' hne
        have hjk : s.addressToAgentId a' ≠ k := by
          intro he
          rw [he] at hb
          exact haold hb.symm
        rw [upd_ne _ _ hjk]
        exact ⟨ha, hb⟩
  · intro i hne
    by_cases hik : i = k
    · subst hik
      rw [upd_eq]
      show upd (upd s.addressToAgentId (s.agents i).agentAddress 0) na i na = i
      rw [upd_eq]
    · rw [upd_ne _ _ hik] at hne ⊢
      have hidx := h8 i hne
      have hai_na : (s.agents i).agentAddress ≠ na := by
        intro he
        rw [he] at hidx
        rw [hna] at hidx
        have hzi := h3 i hne
        rw [hzi, ← hidx] at hne
        exact hne rfl
      have hai_old : (s.agents i).agentAddress ≠ (s.agents k).agentAddress := by
        intro he
        rw [he] at hidx
        rw [holdidx] at hidx
        exact hik hidx.symm
      rw [upd_ne _ _ hai_na, upd_ne _ _ hai_old]
      exact hidx

lemma newAgent_preserves_inv (evvmId mv : Nat) (s : IdState) (c : Nat) (d : String)
    (a n : Nat) (g : Sig) (hinv : IdInv s) :
    IdInv (newAgent evvmId mv s c d a n g).2 := by
  obtain ⟨h1, h2, h3, h4, h5, h6, h7, h8⟩ := hinv
  unfold newAgent
  split_ifs with hf hd ha0 hdom haddr hsig hn
  · exact ⟨h1, h2, h3, h4, h5, h6, h7, h8⟩
  · exact ⟨h1, h2, h3, h4, h5, h6, h7, h8⟩
  · exact ⟨h1, h2, h3, h4, h5, h6, h7, h8⟩
  · exact ⟨h1, h2, h3, h4, h5, h6, h7, h8⟩
  · exact ⟨h1, h2, h3, h4, h5, h6, h7, h8⟩
  · exact ⟨h1, h2, h3, h4, h5, h6, h7, h8⟩
  · exact ⟨h1, h2, h3, h4, h5, h6, h7, h8⟩
  · have hdom0 : s.domainToAgentId d = 0 := by
      by_contra hxx
      exact hdom hxx
    have haddr0 : s.addressToAgentId a = 0 := by
      by_contra hxx
      exact haddr hxx
    have hkc : s.agents s.agentIdCounter = AgentInfo.zero := h2 _ (le_refl _)
    refine ⟨?_, ?_, ?_, ?_, ?_, ?_, ?_, ?_⟩ <;> dsimp only
    · omega
    · intro i hi
      have hik : i ≠ s.agentIdCounter := by omega
      rw [upd_ne _ _ hik]
      exact h2 i (by omega)
    · intro i hne
      by_cases hik : i = s.agentIdCounter
      · subst hik
        rw [upd_eq]
      · rw [upd_ne _ _ hik] at hne ⊢
        exact h3 i hne
    · have h0 : (0 : Nat) ≠ s.agentIdCounter := by omega
      rw [upd_ne _ _ h0]
      exact h4
    · intro d' hne
      by_cases hdd : d' = d
      · subst hdd
        rw [upd_eq] at hne ⊢
        rw [upd_eq]
        refine ⟨?_, rfl⟩
        show s.agentIdCounter ≠ 0
        omega
      · rw [upd_ne _ _ hdd] at hne ⊢
        obtain ⟨ha1, ha2⟩ := h5 d' hne
        have hjk : s.domainToAgentId d' ≠ s.agentIdCounter := by
          intro he
          rw [he, hkc] at ha1
          simp [AgentInfo.zero] at ha1
        rw [upd_ne _ _ hjk]
        exact ⟨ha1, ha2⟩
    · intro i hne
      by_cases hik : i = s.agentIdCounter
      · subst hik
        rw [upd_eq]
        show upd s.domainToAgentId d s.agentIdCounter d = s.agentIdCounter
        rw [upd_eq]
      · rw [upd_ne _ _ hik] at hne ⊢
        have hidx := h6 i hne
        have hdd : (s.agents i).agentDomain ≠ d := by
          intro he
          rw [he] at hidx
          rw [hdom0] at hidx
          have hzi := h3 i hne
          rw [hzi, ← hidx] at hne
          exact hne rfl
        rw [upd_ne _ _ hdd]
        exact hidx
    · intro a' hne
      by_cases haa : a' = a
      · subst haa
        rw [upd_eq] at hne ⊢
        rw [upd_eq]
        refine ⟨?_, rfl⟩
        show s.agentIdCounter ≠ 0
        omega
      · rw [upd_ne _ _ haa] at hne ⊢
        obtain ⟨ha1, ha2⟩ := h7 a' hne
        have hjk : s.addressToAgentId a' ≠ s.agentIdCounter := by
          intro he
          rw [he, hkc] at ha1
          simp [AgentInfo.zero] at ha1
        rw [upd_ne _ _ hjk]
        exact ⟨ha1, ha2⟩
    · intro i hne
      by_cases hik : i = s.agentIdCounter
      · subst hik
        rw [upd_eq]
        show upd s.addressToAgentId a s.agentIdCounter a = s.agentIdCounter
        rw [upd_eq]
      · rw [upd_ne _ _ hik] at hne ⊢
        have hidx := h8 i hne
        have haa : (s.agents i).agentAddress ≠ a := by
          intro he
          rw [he] at hidx
          rw [haddr0] at hidx
          have hzi := h3 i hne
          rw [hzi, ← hidx] at hne
          exact hne rfl
        rw [upd_ne _ _ haa]
        exact hidx

lemma updateAgent_preserves_inv (evvmId snd : Nat) (s : IdState) (c i : Nat)
    (d : String) (a n : Nat) (g : Sig) (hinv : IdInv s) :
    IdInv (updateAgent evvmId snd s c i d a n g).2 := by
  unfold updateAgent
  dsimp only
  by_cases hd : d.length > 0 <;> by_cases ha : a ≠ 0
  · rw [if_pos hd, if_pos ha]
    split_ifs with hid hsnd hsig hn hdc hac <;> try exact hinv
    have hnd : s.domainToAgentId d = 0 := by
      by_contra hxx
      exact hdc ⟨hd, hxx⟩
    have hna : s.addressToAgentId a = 0 := by
      by_contra hxx
      exact hac ⟨ha, hxx⟩
    have hki1 : ((upd s.agents i { s.agents i with agentDomain := d }) i).agentId ≠ 0 := by
      rw [upd_eq]
      exact hid
    exact inv_nonce_irrelevant _ _
      (inv_set_address _ i a (inv_set_domain s i d hinv hid hnd) hki1 hna)
  · rw [if_pos hd, if_neg ha]
    split_ifs with hid hsnd hsig hn hdc hac <;> try exact hinv
    have hnd : s.domainToAgentId d = 0 := by
      by_contra hxx
      exact hdc ⟨hd, hxx⟩
    exact inv_nonce_irrelevant _ _ (inv_set_domain s i d hinv hid hnd)
  · rw [if_neg hd, if_pos ha]
    split_ifs with hid hsnd hsig hn hdc hac <;> try exact hinv
    have hna : s.addressToAgentId a = 0 := by
      by_contra hxx
      exact hac ⟨ha, hxx⟩
    exact inv_nonce_irrelevant _ _ (inv_set_address s i a hinv hid hna)
  · rw [if_neg hd, if_neg ha]
    split_ifs with hid hsnd hsig hn hdc hac <;> exact hinv

lemma applyIdOp_preserves_inv (evvmId : Nat) (s : IdState) (op : IdOp)
    (h : IdInv s) : IdInv (applyIdOp evvmId s op) := by
  cases op with
  | doNew mv c d a n g => exact newAgent_preserves_inv evvmId mv s c d a n g h
  | doUpd snd c i d a n g => exact updateAgent_preserves_inv evvmId snd s c i d a n g h

lemma runIdOps_preserves_inv (evvmId : Nat) (ops : List IdOp) (s : IdState)
    (h : IdInv s) : IdInv (runIdOps evvmId s ops) := by
  induction ops generalizing s with
  | nil => exact h
  | cons op rest ih => exact ih (applyIdOp evvmId s op) (applyIdOp_preserves_inv evvmId s op h)

/-- C9: after any sequence of IdentityRegistry operations from the initial
state, the secondary indexes are exactly consistent with the primary records:
domain d maps to a nonzero id i precisely when agent i exists with domain d,
and address a maps to a nonzero id i precisely when agent i exists with
address a; there are no orphaned or stale index entries. -/
theorem identity_indexes_consistent (evvmId : Nat) (ops : List IdOp) :
    (∀ d i, (runIdOps evvmId initialIdState ops).domainToAgentId d = i ∧ i ≠ 0 ↔
      ((runIdOps evvmId initialIdState ops).agents i).agentId ≠ 0 ∧
      ((runIdOps evvmId initialIdState ops).agents i).agentDomain = d) ∧
    (∀ a i, (runIdOps evvmId initialIdState ops).addressToAgentId a = i ∧ i ≠ 0 ↔
      ((runIdOps evvmId initialIdState ops).agents i).agentId ≠ 0 ∧
      ((runIdOps evvmId initialIdState ops).agents i).agentAddress = a) := by
  obtain ⟨h1, h2, h3, h4, h5, h6, h7, h8⟩ :=
    runIdOps_preserves_inv evvmId ops initialIdState IdInv_initial
  constructor
  · intro d i
    constructor
    · rintro ⟨hidx, hi0⟩
      have hne : (runIdOps evvmId initialIdState ops).domainToAgentId d ≠ 0 := by
        rw [hidx]
        exact hi0
      obtain ⟨ha, hb⟩ := h5 d hne
      rw [hidx] at ha hb
      exact ⟨ha, hb⟩
    · rintro ⟨ha, hb⟩
      have hidx := h6 i ha
      rw [hb] at hidx
      refine ⟨hidx, ?_⟩
      intro he
      exact ha (by rw [h3 i ha, he])
  · intro a i
    constructor
    · rintro ⟨hidx, hi0⟩
      have hne : (runIdOps evvmId initialIdState ops).addressToAgentId a ≠ 0 := by
        rw [hidx]
        exact hi0
      obtain ⟨ha1, hb⟩ := h7 a hne
      rw [hidx] at ha1 hb
      exact ⟨ha1, hb⟩
    · rintro ⟨ha1, hb⟩
      have hidx := h8 i ha1
      rw [hb] at hidx
      refine ⟨hidx, ?_⟩
      intro he
      exact ha1 (by rw [h3 i ha1, he])
